import Mathlib

/-! Verification of the internal-regulation-agent execution loop.

Shallow embedding of the repository `masamasa59/internal-regulation-agent`:

* `execute_plan.py` — the plan/execute/replan control loop (`execute_plan`),
  the `Regulation` result record, and the per-iteration control flow;
* `generate_plan.py` — the `Task`/`Step` record shape and the
  JSON-payload-to-task-list conversion (`parse_json_to_steps`);
* `create_internal_regulatiom_summary.py` — the summary-file
  creation/retrieval round trip.

External effects (the wall clock, document retrieval, the LLM transport,
JSON extraction from free text, and pydantic field coercion) are modelled
as per-iteration oracle data (`IterEvent`): each iteration of the Python
loop consumes exactly one such event, and the loop branches on the event
exactly where the source branches on the corresponding call outcome.
Python's `(current_time - start_time).seconds` is the `seconds` component
of a normalized `timedelta`, i.e. elapsed whole seconds modulo 86400; it
is embedded faithfully as `timedeltaSeconds` over elapsed microseconds.
-/

namespace InternalRegulationAgent

/-- Record `Task` from `generate_plan.py` (there named `Step`; `execute_plan.py`
imports it as `Task`): one file to review and the reason why. -/
structure Task where
  file_name : String
  check_reason : String
deriving Repr, DecidableEq

/-- Record `Regulation` from `execute_plan.py` lines 77–85: a pydantic model with
six plain fields and no validators. -/
structure Regulation where
  file_name : String
  original_text : String
  updated_text : String
  is_updated : Bool
  hypothesis : String
  reason : String
deriving Repr, DecidableEq

/-- One element of a parsed JSON list payload: either a JSON object
(carrying the optional `file_name` / `check_reason` fields that
`parse_json_to_steps` reads via `item.get`) or a non-object value. -/
inductive JItem
  | jdict (file_name : Option String) (check_reason : Option String)
  | nondict
deriving Repr, DecidableEq

/-- A parsed JSON payload as `extract_json_between_markers` returns it:
a list, a single object, or anything else (string, number, ...).
The Python code only inspects it through `isinstance(x, list)`,
`isinstance(x, dict)`, `len(x)` and `item.get(...)`. -/
inductive JPayload
  | jlist (items : List JItem)
  | jdict (file_name : Option String) (check_reason : Option String)
  | other
deriving Repr, DecidableEq

/-- Function `parse_json_to_steps` (`generate_plan.py` lines 73–108) applied to the
items of a list payload: each item must be a dict, missing fields are
coerced to `""`; a non-dict item raises `ValueError`. -/
def parse_items : List JItem → Except String (List Task)
  | [] => .ok []
  | .jdict fn cr :: rest =>
    match parse_items rest with
    | .ok ts => .ok (⟨fn.getD "", cr.getD ""⟩ :: ts)
    | .error e => .error e
  | .nondict :: _ => .error "each step must be a dict"

/-- Function `parse_json_to_tasks` as imported by `execute_plan.py` line 11.
Modelled from the spec: the function itself is absent from the sources
(its file defines the identical `parse_json_to_steps` over the same
record shape); per the spec the replanning payload is "a list/single-object
payload of the same Task shape as the initial plan", parsed exactly as
`parse_json_to_steps` parses the initial plan. -/
def parse_json_to_tasks : JPayload → Except String (List Task)
  | .jlist items => parse_items items
  | .jdict fn cr => .ok [⟨fn.getD "", cr.getD ""⟩]
  | .other => .error "unexpected JSON shape"

/-- The `seconds` attribute of the Python `timedelta`
`current_time - start_time`, given the true elapsed time in microseconds:
a normalized non-negative `timedelta` has
`seconds = (total_microseconds // 10^6) % 86400`. -/
def timedeltaSeconds (elapsed_us : Nat) : Nat :=
  (elapsed_us / 1000000) % 86400

/-- The outcomes of the external calls made by one iteration of the loop
in `execute_plan` (lines 139–234), in program order:

* `elapsed_us` — true elapsed microseconds since `start_time` when
  `datetime.now()` is read at the top of the iteration (line 140);
* `retrieval` — `retrieve_internal_regulation` (line 155): document text
  or a raised exception;
* `execCall` — `get_response_from_llm` for the edit decision (line 176):
  response content or a transport error;
* `execJson` — `extract_json_between_markers(content)` (line 188):
  `none` when no structured block is found;
* `coerce` — `Regulation(**json_output)` (line 193): the pydantic-coerced
  record, or a coercion failure;
* `replanCall` — `get_response_from_llm` for replanning (line 217);
* `replanJson` — `extract_json_between_markers(context)` (line 227). -/
structure IterEvent where
  elapsed_us : Nat
  retrieval : Except String String
  execCall : Except String String
  execJson : Option JPayload
  coerce : Except String Regulation
  replanCall : Except String String
  replanJson : Option JPayload
deriving Repr

/-- The mutable state of `execute_plan`: the read-only arguments the loop
threads through its prompts, and the four lists it mutates
(lines 134–137 initialise the last three to `[]`). -/
structure LoopState where
  query : String
  base_dir : String
  summary_content : String
  time_out : Int
  tasks : List Task
  updated_regulations : List Regulation
  completed_tasks : List Task
  failed_tasks : List Task
deriving Repr, DecidableEq

/-- The three uncaught exceptions an iteration can raise, distinguished in
the source by exception site and message:
`ValueError("Failed to extract JSON from the LLM output.")` (line 190),
`AssertionError("Failed to extract JSON from LLM output")` (line 228),
and a `ValueError` raised inside `parse_json_to_tasks` (line 231). -/
inductive FatalSite
  | editJsonMissing
  | replanJsonMissing
  | parseNewTasks
deriving Repr, DecidableEq

/-- Result of running the body of one iteration (after pop, lines 154–234):
an uncaught exception, or the next loop state. -/
inductive StepOut
  | fatal (site : FatalSite)
  | next (s : LoopState)
deriving Repr, DecidableEq

/-- The body of one iteration of `execute_plan` (lines 154–234), with the
current task `t` already popped from the head (line 148) and `rest` the
remaining queue. Mirrors the source's control flow:

* retrieval failure → task appended to `failed_tasks`, `continue`;
* edit-decision transport error → bare `continue` (task dropped);
* no structured block in the edit response → raise (fatal);
* coercion failure → bare `continue` (task dropped);
* success → append the Regulation, append `t` to `completed_tasks`;
* replanning transport error → `continue`;
* no structured block in the replanning response → assert fails (fatal);
* payload a non-empty list → `parse_json_to_tasks`, extend the queue
  (a parse error propagates, fatal); anything else → no new tasks. -/
def execIteration (s : LoopState) (t : Task) (rest : List Task)
    (e : IterEvent) : StepOut :=
  match e.retrieval with
  | .error _ =>
    .next { s with tasks := rest, failed_tasks := s.failed_tasks ++ [t] }
  | .ok _ =>
    match e.execCall with
    | .error _ => .next { s with tasks := rest }
    | .ok _ =>
      match e.execJson with
      | none => .fatal .editJsonMissing
      | some _ =>
        match e.coerce with
        | .error _ => .next { s with tasks := rest }
        | .ok reg =>
          let s1 : LoopState :=
            { s with
              tasks := rest
              updated_regulations := s.updated_regulations ++ [reg]
              completed_tasks := s.completed_tasks ++ [t] }
          match e.replanCall with
          | .error _ => .next s1
          | .ok _ =>
            match e.replanJson with
            | none => .fatal .replanJsonMissing
            | some p =>
              match p with
              | .jlist items =>
                if items.length > 0 then
                  match parse_json_to_tasks (.jlist items) with
                  | .error _ => .fatal .parseNewTasks
                  | .ok new_tasks =>
                    .next { s1 with tasks := s1.tasks ++ new_tasks }
                else .next s1
              | _ => .next s1

/-- How a run of `execute_plan` ends (or is cut off by the model):

* `done s` — `while tasks:` found the queue empty; the function returns
  `s.updated_regulations` (line 235);
* `timedOut s` — the timeout check fired at the top of an iteration and
  the function returned `s.updated_regulations` (line 146) with the queue
  untouched;
* `fatal` — an uncaught exception propagated out of the loop;
* `outOfTrace s` — the supplied event trace is exhausted while the queue
  is non-empty: the real loop would run further; `s` is its state at that
  point. -/
inductive RunOut
  | done (s : LoopState)
  | timedOut (s : LoopState)
  | fatal (site : FatalSite)
  | outOfTrace (s : LoopState)
deriving Repr, DecidableEq

/-- The `while tasks:` loop of `execute_plan` (lines 139–235), consuming
one `IterEvent` per iteration. The emptiness test comes first (line 139),
then the timeout check (line 142) with the strict comparison
`(current_time - start_time).seconds > time_out`, then the pop and the
iteration body. -/
def execLoop (trace : List IterEvent) (s : LoopState) : RunOut :=
  match s.tasks with
  | [] => .done s
  | t :: rest =>
    match trace with
    | [] => .outOfTrace s
    | e :: es =>
      if (timedeltaSeconds e.elapsed_us : Int) > s.time_out then
        .timedOut s
      else
        match execIteration s t rest e with
        | .fatal site => .fatal site
        | .next s' => execLoop es s'

/-- Function `execute_plan` (lines 109–235): initialises the result, completed and
failed lists to `[]`, records `start_time`, and runs the loop. The
`client`/`client_model` arguments only parameterise the oracle calls and
are absorbed into the event trace. -/
def execute_plan (query : String) (tasks : List Task) (base_dir : String)
    (summary_content : String) (time_out : Int := 900)
    (trace : List IterEvent) : RunOut :=
  execLoop trace
    { query := query
      base_dir := base_dir
      summary_content := summary_content
      time_out := time_out
      tasks := tasks
      updated_regulations := []
      completed_tasks := []
      failed_tasks := [] }

/-- Record `InternalRegulationSummary` from
`create_internal_regulatiom_summary.py` lines 10–12. -/
structure InternalRegulationSummary where
  file_name : String
  content : String
deriving Repr, DecidableEq

/-- Constant `INTERNAL_REGULATION_SUMMARY_FILE_NAME` (line 7). -/
def INTERNAL_REGULATION_SUMMARY_FILE_NAME : String :=
  "internal_regulation_summary.txt"

/-- The ambient file system and process environment seen by
`create_internal_regulatiom_summary.py`: file contents by path, directory
existence (`os.path.exists`), and the output of the `tree` command on the
data directory (`none` models `FileNotFoundError` for the command). -/
structure World where
  files : String → Option String
  dirExists : String → Bool
  treeOutput : Option String

/-- Model of `os.path.join a b` for a relative component, as used throughout the
sources: concatenation with the path separator. -/
def joinPath (a b : String) : String := a ++ "/" ++ b

/-- Function `create_internal_regulation_summary_file` (lines 15–40): checks that
`base_dir/data` exists (else `ValueError`), runs `tree` (a missing command
raises `RuntimeError`), writes its output to `base_dir/file_name`, and
returns the summary with that same output as content. -/
def create_internal_regulation_summary_file (w : World)
    (base_dir : String) (file_name : String) :
    Except String (InternalRegulationSummary × World) :=
  if ¬ w.dirExists (joinPath base_dir "data") then
    .error (joinPath base_dir "data" ++ " does not exist.")
  else
    match w.treeOutput with
    | none => .error "The tree command was not found."
    | some result =>
      .ok (⟨file_name, result⟩,
        { w with
          files := fun p =>
            if p = joinPath base_dir file_name then some result
            else w.files p })

/-- Function `retrieve_internal_regulation_summary` (lines 43–59): without the skip
flag it creates the summary file; with the flag it reads
`base_dir/internal_regulation_summary.txt` from disk (a missing file
raises). -/
def retrieve_internal_regulation_summary (w : World) (base_dir : String)
    (skip_summary_file_creation : Bool) :
    Except String (InternalRegulationSummary × World) :=
  if ¬ skip_summary_file_creation then
    create_internal_regulation_summary_file w base_dir
      INTERNAL_REGULATION_SUMMARY_FILE_NAME
  else
    match w.files (joinPath base_dir INTERNAL_REGULATION_SUMMARY_FILE_NAME)
      with
    | none => .error "FileNotFoundError"
    | some content =>
      .ok (⟨INTERNAL_REGULATION_SUMMARY_FILE_NAME, content⟩, w)

/-! ## Scenario fixtures

Concrete tasks, regulations and iteration events used by the scenario
theorems below. -/

/-- The pending-queue component of a step outcome: `none` when the
iteration raised, otherwise the next state's task list. -/
def StepOut.pending : StepOut → Option (List Task)
  | .fatal _ => none
  | .next s => some s.tasks

/-- Sample task (first queued). -/
def taskA : Task := ⟨"a.docx", "reason a"⟩

/-- Sample task (second queued). -/
def taskB : Task := ⟨"b.docx", "reason b"⟩

/-- Sample successfully-coerced edit decision. -/
def regA : Regulation := ⟨"a.docx", "old a", "new a", true, "ha", "ra"⟩

/-- Sample successfully-coerced edit decision. -/
def regB : Regulation := ⟨"b.docx", "old b", "new b", true, "hb", "rb"⟩

/-- Sample task discovered by replanning. -/
def taskC : Task := ⟨"c.docx", "reason c"⟩

/-- Sample successfully-coerced edit decision. -/
def regC : Regulation := ⟨"c.docx", "old c", "new c", true, "hc", "rc"⟩

/-- A sample environment for the summary round trip: no files on disk yet,
every directory present, and the `tree` command available. -/
def sampleWorld : World :=
  { files := fun _ => none
    dirExists := fun _ => true
    treeOutput := some "tree listing" }

/-- World `sampleWorld` after the non-skip retrieval path has written the
summary file under base directory `"base"`. -/
def sampleWorldAfter : World :=
  { files := fun p =>
      if p = joinPath "base" INTERNAL_REGULATION_SUMMARY_FILE_NAME then
        some "tree listing"
      else sampleWorld.files p
    dirExists := sampleWorld.dirExists
    treeOutput := sampleWorld.treeOutput }

/-- An iteration event in which every external call succeeds, the edit
decision coerces to `reg`, and replanning returns the empty list `[]`
(no new tasks); the clock reads `el` microseconds past `start_time`. -/
def okEvent (el : Nat) (reg : Regulation) : IterEvent :=
  { elapsed_us := el
    retrieval := .ok "regulation text"
    execCall := .ok "llm content"
    execJson := some .other
    coerce := .ok reg
    replanCall := .ok "replanning content"
    replanJson := some (.jlist []) }

/-- The exit state of a run, when one exists: the loop state carried by a
normal, timed-out or cut-off outcome (`none` for a fatal outcome). -/
def RunOut.exitState : RunOut → Option LoopState
  | .done s => some s
  | .timedOut s => some s
  | .outOfTrace s => some s
  | .fatal _ => none

/-- The initial loop state built by `execute_plan` at lines 134–137. -/
def initState (query base_dir summary_content : String) (time_out : Int)
    (tasks : List Task) : LoopState :=
  { query := query
    base_dir := base_dir
    summary_content := summary_content
    time_out := time_out
    tasks := tasks
    updated_regulations := []
    completed_tasks := []
    failed_tasks := [] }

/-- An iteration event whose document retrieval raises. -/
def retrievalErrorEvent : IterEvent :=
  { elapsed_us := 0
    retrieval := .error "file missing"
    execCall := .error "unreached"
    execJson := none
    coerce := .error "unreached"
    replanCall := .error "unreached"
    replanJson := none }

/-- A fully successful iteration event whose replanning payload is a
single Task-shaped JSON object (not a list). -/
def singleObjectReplanEvent (el : Nat) (reg : Regulation) : IterEvent :=
  { okEvent el reg with
    replanJson := some (.jdict (some "new.docx") (some "cross-reference")) }

/-- A fully successful iteration event whose replanning payload is a
one-element list describing the task `nt`. -/
def spawnEvent (el : Nat) (reg : Regulation) (nt : Task) : IterEvent :=
  { okEvent el reg with
    replanJson :=
      some (.jlist [.jdict (some nt.file_name) (some nt.check_reason)]) }

/-- A coerced edit decision whose fields violate the spec's Regulation
invariant: `is_updated` is false while both text fields are non-empty. -/
def badReg : Regulation :=
  ⟨"c.docx", "some original", "some update", false, "hc", "rc"⟩

/-- The `k`-th event of an adversarial run: every call succeeds,
replanning always discovers one further task, and the `k`-th iteration
begins exactly `k` days after `start_time` (a strictly increasing,
unbounded clock). -/
def runawayEvent (k : Nat) : IterEvent :=
  { okEvent (k * 86400000000) regA with
    replanJson := some (.jlist [.jdict (some "f.docx") (some "follow-up")]) }

/-- Trace of `n` consecutive adversarial events starting at iteration index `k`:
`runawayEvent k, runawayEvent (k+1), …`. -/
def runawayTrace : Nat → Nat → List IterEvent
  | _, 0 => []
  | k, n + 1 => runawayEvent k :: runawayTrace (k + 1) n

/-! ## Loop lemmas shared by the claim theorems -/

theorem execLoop_done (trace : List IterEvent) (s : LoopState)
    (h : s.tasks = []) : execLoop trace s = .done s := by
  unfold execLoop
  rw [h]

theorem execLoop_timeout (e : IterEvent) (es : List IterEvent)
    (s : LoopState) (t : Task) (rest : List Task)
    (hts : s.tasks = t :: rest)
    (h : (timedeltaSeconds e.elapsed_us : Int) > s.time_out) :
    execLoop (e :: es) s = .timedOut s := by
  unfold execLoop
  rw [hts]
  simp [h]

theorem execLoop_cons_next (e : IterEvent) (es : List IterEvent)
    (s : LoopState) (t : Task) (rest : List Task) (s' : LoopState)
    (hts : s.tasks = t :: rest)
    (hcond : ¬ (timedeltaSeconds e.elapsed_us : Int) > s.time_out)
    (hstep : execIteration s t rest e = .next s') :
    execLoop (e :: es) s = execLoop es s' := by
  conv_lhs => rw [execLoop]
  rw [hts]
  simp [hcond, hstep]

theorem execLoop_cons_fatal (e : IterEvent) (es : List IterEvent)
    (s : LoopState) (t : Task) (rest : List Task) (site : FatalSite)
    (hts : s.tasks = t :: rest)
    (hcond : ¬ (timedeltaSeconds e.elapsed_us : Int) > s.time_out)
    (hstep : execIteration s t rest e = .fatal site) :
    execLoop (e :: es) s = .fatal site := by
  unfold execLoop
  rw [hts]
  simp [hcond, hstep]

theorem execIteration_next_frame (s : LoopState) (t : Task)
    (rest : List Task) (e : IterEvent) (s' : LoopState)
    (h : execIteration s t rest e = .next s') :
    s'.query = s.query ∧ s'.base_dir = s.base_dir ∧
      s'.summary_content = s.summary_content ∧
      s'.time_out = s.time_out := by
  unfold execIteration at h
  repeat' split at h
  all_goals try (injection h with h2; subst h2)
  all_goals simp_all

theorem execLoop_nil_cons (s : LoopState) (t : Task) (rest : List Task)
    (hts : s.tasks = t :: rest) : execLoop [] s = .outOfTrace s := by
  unfold execLoop
  rw [hts]

theorem execLoop_exit_frame (trace : List IterEvent) :
    ∀ s s', (execLoop trace s).exitState = some s' →
      s'.query = s.query ∧ s'.base_dir = s.base_dir ∧
        s'.summary_content = s.summary_content ∧
        s'.time_out = s.time_out := by
  induction trace with
  | nil =>
    intro s s' h
    cases hts : s.tasks with
    | nil =>
      rw [execLoop_done [] s hts] at h
      simp only [RunOut.exitState, Option.some.injEq] at h
      subst h
      exact ⟨rfl, rfl, rfl, rfl⟩
    | cons t rest =>
      rw [execLoop_nil_cons s t rest hts] at h
      simp only [RunOut.exitState, Option.some.injEq] at h
      subst h
      exact ⟨rfl, rfl, rfl, rfl⟩
  | cons e es ih =>
    intro s s' h
    cases hts : s.tasks with
    | nil =>
      rw [execLoop_done (e :: es) s hts] at h
      simp only [RunOut.exitState, Option.some.injEq] at h
      subst h
      exact ⟨rfl, rfl, rfl, rfl⟩
    | cons t rest =>
      by_cases hcond : (timedeltaSeconds e.elapsed_us : Int) > s.time_out
      · rw [execLoop_timeout e es s t rest hts hcond] at h
        simp only [RunOut.exitState, Option.some.injEq] at h
        subst h
        exact ⟨rfl, rfl, rfl, rfl⟩
      · cases hstep : execIteration s t rest e with
        | fatal site =>
          rw [execLoop_cons_fatal e es s t rest site hts hcond hstep] at h
          simp [RunOut.exitState] at h
        | next s1 =>
          rw [execLoop_cons_next e es s t rest s1 hts hcond hstep] at h
          obtain ⟨h1, h2, h3, h4⟩ := ih s1 s' h
          obtain ⟨g1, g2, g3, g4⟩ :=
            execIteration_next_frame s t rest e s1 hstep
          exact ⟨h1.trans g1, h2.trans g2, h3.trans g3, h4.trans g4⟩

theorem execLoop_done_tasks (trace : List IterEvent) :
    ∀ s s', execLoop trace s = .done s' → s'.tasks = [] := by
  induction trace with
  | nil =>
    intro s s' h
    cases hts : s.tasks with
    | nil =>
      rw [execLoop_done [] s hts] at h
      cases h
      exact hts
    | cons t rest =>
      rw [execLoop_nil_cons s t rest hts] at h
      cases h
  | cons e es ih =>
    intro s s' h
    cases hts : s.tasks with
    | nil =>
      rw [execLoop_done (e :: es) s hts] at h
      cases h
      exact hts
    | cons t rest =>
      by_cases hcond : (timedeltaSeconds e.elapsed_us : Int) > s.time_out
      · rw [execLoop_timeout e es s t rest hts hcond] at h
        cases h
      · cases hstep : execIteration s t rest e with
        | fatal site =>
          rw [execLoop_cons_fatal e es s t rest site hts hcond hstep] at h
          cases h
        | next s1 =>
          rw [execLoop_cons_next e es s t rest s1 hts hcond hstep] at h
          exact ih s1 s' h

/-! ## Claim theorems -/

/-- C1: the claim says that whenever the elapsed wall-clock time since
loop start exceeds the timeout budget at the top-of-iteration check, the
loop aborts and returns the accumulated results. The code instead compares
`(current_time - start_time).seconds` — elapsed whole seconds modulo
86400 — with the budget. Failing input: two tasks, budget 900 s, and the
second top-of-iteration check happening exactly 86400 s (one day) after
loop start. The true elapsed time (86400 s) exceeds the budget, yet the
check reads `timedelta.seconds = 0`, does not fire, and the loop pops and
completes the second task, returning two Regulations instead of one. -/
theorem timeout_check_misses_day_elapsed :
    (86400000000 : Nat) / 1000000 > 900 ∧
    timedeltaSeconds 86400000000 = 0 ∧
    execute_plan "q" [taskA, taskB] "base" "sum" 900
      [okEvent 0 regA, okEvent 86400000000 regB] =
      .done { query := "q", base_dir := "base", summary_content := "sum",
              time_out := 900, tasks := [],
              updated_regulations := [regA, regB],
              completed_tasks := [taskA, taskB], failed_tasks := [] } :=
  ⟨by norm_num, rfl, rfl⟩

/-- C2 counterexample: the claim quantifies over every budget `T ≤ 0`,
but at `T = 0` the code performs a full task iteration. With one queued
task and the first check reading 5 µs of elapsed time, `timedelta.seconds`
is `0`, the check `0 > 0` fails, and the task is popped, retrieved and
completed: the run returns one Regulation, not the claimed empty list with
zero iterations. -/
theorem zero_timeout_processes_a_task :
    execute_plan "q" [taskA] "base" "sum" 0 [okEvent 5 regA] =
      .done { query := "q", base_dir := "base", summary_content := "sum",
              time_out := 0, tasks := [],
              updated_regulations := [regA],
              completed_tasks := [taskA], failed_tasks := [] } :=
  rfl

/-- C2 amended: for every strictly negative budget `T < 0` and non-empty
initial task list, the first top-of-iteration check fires at once
(`timedelta.seconds ≥ 0 > T`), so `execute_plan` pops no task, calls no
retriever and no decision service, and returns the empty result list with
the caller's queue untouched. -/
theorem negative_timeout_returns_immediately (q b c : String) (T : Int)
    (ts : List Task) (e : IterEvent) (es : List IterEvent)
    (hT : T < 0) (hts : ts ≠ []) :
    execute_plan q ts b c T (e :: es) = .timedOut (initState q b c T ts) := by
  cases ts with
  | nil => exact absurd rfl hts
  | cons t rest =>
    exact execLoop_timeout e es (initState q b c T (t :: rest)) t rest rfl
      (lt_of_lt_of_le hT (Int.natCast_nonneg _))

/-- C2 amended, witness: the amended theorem applied at budget `-1`, one
queued task, and an arbitrary first event. -/
theorem negative_timeout_returns_immediately_witness :
    execute_plan "q" [taskA] "base" "sum" (-1) [retrievalErrorEvent] =
      .timedOut (initState "q" "base" "sum" (-1) [taskA]) :=
  negative_timeout_returns_immediately "q" "base" "sum" (-1) [taskA]
    retrievalErrorEvent [] (by norm_num) (by simp)

/-- C6: a task whose document retrieval raises is appended to the failed
list, produces no Regulation, and the loop continues with the queue tail
and every other piece of state unchanged (so it is never retried); and in
the single-task scenario the loop then exits normally with an empty
result list and exactly that task in the failed list. -/
theorem retrieval_failure_fails_task_and_continues :
    (∀ (s : LoopState) (t : Task) (rest : List Task) (e : IterEvent)
      (err : String), e.retrieval = .error err →
        execIteration s t rest e =
          .next { s with tasks := rest,
                         failed_tasks := s.failed_tasks ++ [t] }) ∧
    execute_plan "q" [taskA] "base" "sum" 900 [retrievalErrorEvent] =
      .done { query := "q", base_dir := "base", summary_content := "sum",
              time_out := 900, tasks := [],
              updated_regulations := [], completed_tasks := [],
              failed_tasks := [taskA] } := by
  constructor
  · intro s t rest e err h
    unfold execIteration
    rw [h]
  · rfl

/-- C6 witness: the general part applied to the concrete failing event. -/
theorem retrieval_failure_fails_task_and_continues_witness :
    execIteration (initState "q" "base" "sum" 900 [taskA]) taskA []
        retrievalErrorEvent =
      .next { query := "q", base_dir := "base", summary_content := "sum",
              time_out := 900, tasks := [], updated_regulations := [],
              completed_tasks := [], failed_tasks := [taskA] } :=
  retrieval_failure_fails_task_and_continues.1
    (initState "q" "base" "sum" 900 [taskA]) taskA [] retrievalErrorEvent
    "file missing" rfl

/-- C4: the pending queue is strict FIFO. Every non-fatal iteration
leaves the queue equal to the old tail followed by the (possibly empty)
batch of replanning-discovered tasks in their discovered order — the head
is popped, new tasks go to the tail; and in the concrete scenario with
initial tasks `[A, B]` where only A's replanning produces `[C]`, the
completion order is exactly `A, B, C`. -/
theorem fifo_pop_head_append_tail :
    (∀ (s : LoopState) (t : Task) (rest : List Task) (e : IterEvent),
      (execIteration s t rest e).pending = none ∨
        ∃ ts, (execIteration s t rest e).pending = some (rest ++ ts)) ∧
    execute_plan "q" [taskA, taskB] "base" "sum" 900
      [spawnEvent 0 regA taskC, okEvent 0 regB, okEvent 0 regC] =
      .done { query := "q", base_dir := "base", summary_content := "sum",
              time_out := 900, tasks := [],
              updated_regulations := [regA, regB, regC],
              completed_tasks := [taskA, taskB, taskC],
              failed_tasks := [] } := by
  constructor
  · intro s t rest e
    unfold execIteration
    repeat' split
    all_goals try (left; rfl)
    all_goals refine Or.inr ?_
    all_goals first
      | exact ⟨_, rfl⟩
      | exact ⟨[], by simp [StepOut.pending]⟩
  · rfl

/-- C7 counterexample: the claim says a replanning response whose
structured payload is a single Task-shaped object creates one new task
appended to the queue. The payload here is exactly such an object — the
first conjunct shows `parse_json_to_tasks` turns it into one task — yet
`execute_plan` reaches the merge with it, appends nothing (the guard at
line 230 requires `isinstance(new_tasks_json, list)`), and exits with the
queue empty after the single original task, never creating or processing
the described task even though a further event was available. -/
theorem single_object_replanning_payload_adds_no_task :
    parse_json_to_tasks (.jdict (some "new.docx") (some "cross-reference")) =
      .ok [⟨"new.docx", "cross-reference"⟩] ∧
    execute_plan "q" [taskA] "base" "sum" 900
      [singleObjectReplanEvent 0 regA, okEvent 0 regB] =
      .done { query := "q", base_dir := "base", summary_content := "sum",
              time_out := 900, tasks := [],
              updated_regulations := [regA],
              completed_tasks := [taskA], failed_tasks := [] } :=
  ⟨rfl, rfl⟩

/-- C7 amended: the replanning merge appends new tasks if and only if the
extracted payload is a non-empty list: a non-empty list of Task-shaped
objects is parsed and appended at the tail in order, while an empty list,
a single object (even Task-shaped), or any non-list payload adds no
tasks and the loop simply continues. Stated for an iteration that reached
replanning (retrieval, edit call, extraction, coercion and replanning
call all succeeded). -/
theorem replanning_merge_appends_only_nonempty_lists
    (s : LoopState) (t : Task) (rest : List Task) (e : IterEvent)
    (txt c ctx : String) (p : JPayload) (reg : Regulation)
    (hret : e.retrieval = .ok txt) (hec : e.execCall = .ok c)
    (hej : e.execJson = some p) (hco : e.coerce = .ok reg)
    (hrc : e.replanCall = .ok ctx) :
    (∀ items ts, e.replanJson = some (.jlist items) → items ≠ [] →
      parse_items items = .ok ts →
      execIteration s t rest e =
        .next { s with tasks := rest ++ ts,
                       updated_regulations := s.updated_regulations ++ [reg],
                       completed_tasks := s.completed_tasks ++ [t] }) ∧
    (e.replanJson = some (.jlist []) →
      execIteration s t rest e =
        .next { s with tasks := rest,
                       updated_regulations := s.updated_regulations ++ [reg],
                       completed_tasks := s.completed_tasks ++ [t] }) ∧
    (∀ fn cr, e.replanJson = some (.jdict fn cr) →
      execIteration s t rest e =
        .next { s with tasks := rest,
                       updated_regulations := s.updated_regulations ++ [reg],
                       completed_tasks := s.completed_tasks ++ [t] }) ∧
    (e.replanJson = some .other →
      execIteration s t rest e =
        .next { s with tasks := rest,
                       updated_regulations := s.updated_regulations ++ [reg],
                       completed_tasks := s.completed_tasks ++ [t] }) := by
  refine ⟨?_, ?_, ?_, ?_⟩
  · intro items ts hrj hne hp
    unfold execIteration
    rw [hret, hec, hej, hco, hrc, hrj]
    have hlen : items.length > 0 := by
      cases items with
      | nil => exact absurd rfl hne
      | cons a l => simp
    simp only [parse_json_to_tasks, hp, hlen, if_pos]
  · intro hrj
    unfold execIteration
    rw [hret, hec, hej, hco, hrc, hrj]
    simp
  · intro fn cr hrj
    unfold execIteration
    rw [hret, hec, hej, hco, hrc, hrj]
  · intro hrj
    unfold execIteration
    rw [hret, hec, hej, hco, hrc, hrj]

/-- C7 amended, witness: the single-object and one-element-list branches
of the amended theorem applied to concrete events. -/
theorem replanning_merge_appends_only_nonempty_lists_witness :
    execIteration (initState "q" "base" "sum" 900 [taskA]) taskA []
        (singleObjectReplanEvent 0 regA) =
      .next { query := "q", base_dir := "base", summary_content := "sum",
              time_out := 900, tasks := [],
              updated_regulations := [regA],
              completed_tasks := [taskA], failed_tasks := [] } ∧
    execIteration (initState "q" "base" "sum" 900 [taskA]) taskA []
        (spawnEvent 0 regA taskC) =
      .next { query := "q", base_dir := "base", summary_content := "sum",
              time_out := 900, tasks := [taskC],
              updated_regulations := [regA],
              completed_tasks := [taskA], failed_tasks := [] } :=
  ⟨(replanning_merge_appends_only_nonempty_lists
      (initState "q" "base" "sum" 900 [taskA]) taskA []
      (singleObjectReplanEvent 0 regA) "regulation text" "llm content"
      "replanning content" .other regA rfl rfl rfl rfl rfl).2.2.1
      (some "new.docx") (some "cross-reference") rfl,
   (replanning_merge_appends_only_nonempty_lists
      (initState "q" "base" "sum" 900 [taskA]) taskA []
      (spawnEvent 0 regA taskC) "regulation text" "llm content"
      "replanning content" .other regA rfl rfl rfl rfl rfl).1
      [.jdict (some taskC.file_name) (some taskC.check_reason)] [taskC]
      rfl (by simp) rfl⟩

/-- C8 counterexample: the claim says every Regulation appended to the
result list relates `is_updated` to the text fields, regardless of the
payload the decision service returns. The `Regulation` model has no
validator and `execute_plan` appends whatever coerces: here the decision
service returns a record with `is_updated = false` and both text fields
non-empty, and it lands in the result list unchanged. -/
theorem invariant_violating_regulation_is_appended :
    badReg.is_updated = false ∧
    0 < badReg.original_text.length ∧
    0 < badReg.updated_text.length ∧
    execute_plan "q" [taskA] "base" "sum" 900 [okEvent 0 badReg] =
      .done { query := "q", base_dir := "base", summary_content := "sum",
              time_out := 900, tasks := [],
              updated_regulations := [badReg],
              completed_tasks := [taskA], failed_tasks := [] } :=
  ⟨rfl, by decide, by decide, rfl⟩

/-- C8 amended: the loop never checks or edits the coerced record — an
iteration either leaves the result list unchanged, or appends exactly the
Regulation the coercion produced, verbatim; no invariant between
`is_updated` and the text fields is enforced, so the spec's invariant
holds only if every payload the decision service returns satisfies it. -/
theorem result_records_are_coerced_payloads_verbatim
    (s : LoopState) (t : Task) (rest : List Task) (e : IterEvent)
    (s' : LoopState) (h : execIteration s t rest e = .next s') :
    s'.updated_regulations = s.updated_regulations ∨
      ∃ reg, e.coerce = .ok reg ∧
        s'.updated_regulations = s.updated_regulations ++ [reg] := by
  unfold execIteration at h
  repeat' split at h
  all_goals try (injection h with h2; subst h2)
  all_goals simp_all

/-- C8 amended, witness: the amended theorem applied to an iteration that
appends the invariant-violating record. -/
theorem result_records_are_coerced_payloads_verbatim_witness :
    ({ query := "q", base_dir := "base", summary_content := "sum",
       time_out := 900, tasks := ([] : List Task),
       updated_regulations := [badReg],
       completed_tasks := [taskA],
       failed_tasks := ([] : List Task) } : LoopState).updated_regulations =
        (initState "q" "base" "sum" 900 [taskA]).updated_regulations ∨
      ∃ reg, (okEvent 0 badReg).coerce = .ok reg ∧
        ({ query := "q", base_dir := "base", summary_content := "sum",
           time_out := 900, tasks := ([] : List Task),
           updated_regulations := [badReg],
           completed_tasks := [taskA],
           failed_tasks := ([] : List Task) } : LoopState).updated_regulations =
          (initState "q" "base" "sum" 900 [taskA]).updated_regulations ++ [reg] :=
  result_records_are_coerced_payloads_verbatim
    (initState "q" "base" "sum" 900 [taskA]) taskA [] (okEvent 0 badReg)
    _ rfl

/-- C5: in the edit-decision step (retrieval already succeeded) the
iteration raises the edit-step fatal error if and only if the decision
service's call returned but its response contained no structured block;
a transport error on the call, or a structured payload that fails to
coerce into a Regulation, instead drops the task silently — the next
state keeps the completed, failed and result lists unchanged and the
loop moves on to the queue tail. -/
theorem edit_decision_fatal_iff_missing_json
    (s : LoopState) (t : Task) (rest : List Task) (e : IterEvent)
    (txt : String) (hret : e.retrieval = .ok txt) :
    (execIteration s t rest e = .fatal .editJsonMissing ↔
      (∃ c, e.execCall = .ok c) ∧ e.execJson = none) ∧
    (∀ err, e.execCall = .error err →
      execIteration s t rest e = .next { s with tasks := rest }) ∧
    (∀ c p err, e.execCall = .ok c → e.execJson = some p →
      e.coerce = .error err →
      execIteration s t rest e = .next { s with tasks := rest }) := by
  refine ⟨⟨?_, ?_⟩, ?_, ?_⟩
  · intro h
    unfold execIteration at h
    rw [hret] at h
    cases hec : e.execCall with
    | error err => rw [hec] at h; simp at h
    | ok c =>
      rw [hec] at h
      cases hej : e.execJson with
      | none => exact ⟨⟨c, rfl⟩, rfl⟩
      | some p =>
        rw [hej] at h
        cases hco : e.coerce with
        | error err => rw [hco] at h; simp at h
        | ok reg =>
          rw [hco] at h
          cases hrc : e.replanCall with
          | error err => rw [hrc] at h; simp at h
          | ok ctx =>
            rw [hrc] at h
            cases hrj : e.replanJson with
            | none => rw [hrj] at h; simp at h
            | some p2 =>
              rw [hrj] at h
              cases p2 with
              | jlist items =>
                by_cases hlen : items.length > 0
                · simp only [hlen, if_pos] at h
                  split at h <;> simp at h
                · simp only [hlen, if_neg, if_false] at h
                  simp at h
              | jdict fn cr => simp at h
              | other => simp at h
  · rintro ⟨⟨c, hec⟩, hej⟩
    unfold execIteration
    rw [hret, hec, hej]
  · intro err hec
    unfold execIteration
    rw [hret, hec]
  · intro c p err hec hej hco
    unfold execIteration
    rw [hret, hec, hej, hco]

/-- C5 witness: the three parts exercised on concrete events — a response
with no structured block is fatal, and a transport error and a coercion
failure each drop the task with all lists unchanged. -/
theorem edit_decision_fatal_iff_missing_json_witness :
    execIteration (initState "q" "base" "sum" 900 [taskA]) taskA []
        { retrievalErrorEvent with
          retrieval := .ok "text"
          execCall := .ok "prose only" } =
      .fatal .editJsonMissing ∧
    execIteration (initState "q" "base" "sum" 900 [taskA]) taskA []
        { retrievalErrorEvent with
          retrieval := .ok "text"
          execCall := .error "transport down" } =
      .next { query := "q", base_dir := "base", summary_content := "sum",
              time_out := 900, tasks := [], updated_regulations := [],
              completed_tasks := [], failed_tasks := [] } ∧
    execIteration (initState "q" "base" "sum" 900 [taskA]) taskA []
        { retrievalErrorEvent with
          retrieval := .ok "text"
          execCall := .ok "content"
          execJson := some .other
          coerce := .error "bad fields" } =
      .next { query := "q", base_dir := "base", summary_content := "sum",
              time_out := 900, tasks := [], updated_regulations := [],
              completed_tasks := [], failed_tasks := [] } :=
  ⟨(edit_decision_fatal_iff_missing_json
      (initState "q" "base" "sum" 900 [taskA]) taskA [] _ "text" rfl).1.mpr
      ⟨⟨"prose only", rfl⟩, rfl⟩,
   (edit_decision_fatal_iff_missing_json
      (initState "q" "base" "sum" 900 [taskA]) taskA [] _ "text" rfl).2.1
      "transport down" rfl,
   (edit_decision_fatal_iff_missing_json
      (initState "q" "base" "sum" 900 [taskA]) taskA [] _ "text" rfl).2.2
      "content" .other "bad fields" rfl rfl rfl⟩

theorem runaway_loop_never_exits_aux :
    ∀ (n k : Nat) (s : LoopState) (t : Task),
      s.time_out = 900 → s.tasks = [t] →
      ∃ s', execLoop (runawayTrace k n) s = .outOfTrace s' ∧
        ∃ t', s'.tasks = [t'] := by
  intro n
  induction n with
  | zero =>
    intro k s t h900 hts
    exact ⟨s, execLoop_nil_cons s t [] hts, t, hts⟩
  | succ n ih =>
    intro k s t h900 hts
    have hsec : timedeltaSeconds (k * 86400000000) = 0 := by
      unfold timedeltaSeconds
      have h1 : k * 86400000000 = k * 86400 * 1000000 := by ring
      rw [h1, Nat.mul_div_cancel _ (by norm_num)]
      exact Nat.mul_mod_left k 86400
    have hcond :
        ¬ (timedeltaSeconds (runawayEvent k).elapsed_us : Int) >
          s.time_out := by
      show ¬ (timedeltaSeconds (k * 86400000000) : Int) > s.time_out
      rw [hsec, h900]
      norm_num
    have hstep : execIteration s t [] (runawayEvent k) =
        .next { s with
                tasks := [(⟨"f.docx", "follow-up"⟩ : Task)]
                updated_regulations := s.updated_regulations ++ [regA]
                completed_tasks := s.completed_tasks ++ [t] } := rfl
    have hloop : execLoop (runawayTrace k (n + 1)) s =
        execLoop (runawayTrace (k + 1) n)
          { s with
            tasks := [(⟨"f.docx", "follow-up"⟩ : Task)]
            updated_regulations := s.updated_regulations ++ [regA]
            completed_tasks := s.completed_tasks ++ [t] } :=
      execLoop_cons_next _ _ s t [] _ hts hcond hstep
    rw [hloop]
    exact ih (k + 1) _ ⟨"f.docx", "follow-up"⟩ h900 rfl

/-- C3: the claim says every run terminates, the wall-clock timeout being
the sole backpressure against runaway replanning. Because the check uses
`timedelta.seconds`, a run whose iterations each begin exactly `k` days
after loop start — a strictly increasing, unbounded clock (first
conjunct) — always reads `seconds = 0`, never trips the 900 s budget, and
replanning keeps the queue non-empty: for every `n`, after consuming `n`
events the loop is still running with a pending task (second conjunct),
so the run never terminates. -/
theorem runaway_replanning_never_times_out :
    (∀ k, (runawayEvent k).elapsed_us < (runawayEvent (k + 1)).elapsed_us) ∧
    ∀ n, ∃ s',
      execLoop (runawayTrace 0 n) (initState "q" "base" "sum" 900 [taskA]) =
        .outOfTrace s' ∧ ∃ t', s'.tasks = [t'] := by
  constructor
  · intro k
    show k * 86400000000 < (k + 1) * 86400000000
    omega
  · intro n
    obtain ⟨s', hs', t', ht'⟩ :=
      runaway_loop_never_exits_aux n 0
        (initState "q" "base" "sum" 900 [taskA]) taskA rfl rfl
    exact ⟨s', hs', t', ht'⟩

/-- C9: the summary round trip. If the non-skip path succeeds — it listed
the data directory, wrote the listing to the summary file, and returned
it as the summary content — then retrieving with the cache-skip flag set
reads back exactly the bytes the non-skip path wrote and returned, with
the same file name and no further change to the file system. -/
theorem summary_round_trip (w : World) (base : String)
    (s1 : InternalRegulationSummary) (w' : World)
    (h : retrieve_internal_regulation_summary w base false = .ok (s1, w')) :
    retrieve_internal_regulation_summary w' base true =
        .ok (⟨INTERNAL_REGULATION_SUMMARY_FILE_NAME, s1.content⟩, w') ∧
      w'.files (joinPath base INTERNAL_REGULATION_SUMMARY_FILE_NAME) =
        some s1.content ∧
      s1.file_name = INTERNAL_REGULATION_SUMMARY_FILE_NAME := by
  rw [show retrieve_internal_regulation_summary w base false =
        create_internal_regulation_summary_file w base
          INTERNAL_REGULATION_SUMMARY_FILE_NAME from rfl] at h
  unfold create_internal_regulation_summary_file at h
  split at h
  · simp at h
  · split at h
    · simp at h
    · rename_i result heq
      rw [Except.ok.injEq, Prod.mk.injEq] at h
      obtain ⟨hs1, hw'⟩ := h
      subst hs1
      subst hw'
      refine ⟨?_, ?_, rfl⟩
      · unfold retrieve_internal_regulation_summary
        simp
      · simp

/-- C9 witness: the round-trip theorem applied to a concrete environment
in which the data directory exists and `tree` prints a concrete listing. -/
theorem summary_round_trip_witness :
    retrieve_internal_regulation_summary sampleWorldAfter "base" true =
        .ok (⟨INTERNAL_REGULATION_SUMMARY_FILE_NAME, "tree listing"⟩,
          sampleWorldAfter) ∧
      sampleWorldAfter.files
          (joinPath "base" INTERNAL_REGULATION_SUMMARY_FILE_NAME) =
        some "tree listing" ∧
      (⟨INTERNAL_REGULATION_SUMMARY_FILE_NAME,
        "tree listing"⟩ : InternalRegulationSummary).file_name =
        INTERNAL_REGULATION_SUMMARY_FILE_NAME :=
  summary_round_trip sampleWorld "base"
    ⟨INTERNAL_REGULATION_SUMMARY_FILE_NAME, "tree listing"⟩
    sampleWorldAfter rfl

/-- C10: frame and queue effects of `execute_plan`. A normal exit leaves
the task list empty (the caller's queue was drained in place) and the
read-only arguments — query, base directory, summary content — unchanged;
a timeout exit returns, unchanged, the exact loop state at the firing
check, so the caller's list holds precisely the still-unprocessed tasks
in their queued order; and the read-only arguments are unchanged on
timeout exits as well. -/
theorem execute_plan_frame_and_queue :
    (∀ (trace : List IterEvent) (s s' : LoopState),
      execLoop trace s = .done s' →
        s'.tasks = [] ∧ s'.query = s.query ∧ s'.base_dir = s.base_dir ∧
          s'.summary_content = s.summary_content) ∧
    (∀ (e : IterEvent) (es : List IterEvent) (s : LoopState) (t : Task)
      (rest : List Task), s.tasks = t :: rest →
      (timedeltaSeconds e.elapsed_us : Int) > s.time_out →
      execLoop (e :: es) s = .timedOut s) ∧
    (∀ (trace : List IterEvent) (s s' : LoopState),
      execLoop trace s = .timedOut s' →
        s'.query = s.query ∧ s'.base_dir = s.base_dir ∧
          s'.summary_content = s.summary_content) := by
  refine ⟨?_, ?_, ?_⟩
  · intro trace s s' h
    have h1 := execLoop_done_tasks trace s s' h
    have h2 := execLoop_exit_frame trace s s' (by rw [h]; rfl)
    exact ⟨h1, h2.1, h2.2.1, h2.2.2.1⟩
  · intro e es s t rest hts hcond
    exact execLoop_timeout e es s t rest hts hcond
  · intro trace s s' h
    have h2 := execLoop_exit_frame trace s s' (by rw [h]; rfl)
    exact ⟨h2.1, h2.2.1, h2.2.2.1⟩

/-- C10 witness: the normal-exit part applied to a one-task run that
drains the queue, and the timeout part applied to a zero-budget state
whose first check reads five elapsed seconds. -/
theorem execute_plan_frame_and_queue_witness :
    (({ query := "q", base_dir := "base", summary_content := "sum",
        time_out := 900, tasks := [], updated_regulations := [regA],
        completed_tasks := [taskA],
        failed_tasks := [] } : LoopState).tasks = [] ∧
      ({ query := "q", base_dir := "base", summary_content := "sum",
         time_out := 900, tasks := [], updated_regulations := [regA],
         completed_tasks := [taskA],
         failed_tasks := [] } : LoopState).query =
        (initState "q" "base" "sum" 900 [taskA]).query ∧
      ({ query := "q", base_dir := "base", summary_content := "sum",
         time_out := 900, tasks := [], updated_regulations := [regA],
         completed_tasks := [taskA],
         failed_tasks := [] } : LoopState).base_dir =
        (initState "q" "base" "sum" 900 [taskA]).base_dir ∧
      ({ query := "q", base_dir := "base", summary_content := "sum",
         time_out := 900, tasks := [], updated_regulations := [regA],
         completed_tasks := [taskA],
         failed_tasks := [] } : LoopState).summary_content =
        (initState "q" "base" "sum" 900 [taskA]).summary_content) ∧
    execLoop [okEvent 5000000 regA] (initState "q2" "b2" "s2" 0 [taskB]) =
      .timedOut (initState "q2" "b2" "s2" 0 [taskB]) :=
  ⟨execute_plan_frame_and_queue.1 [okEvent 0 regA]
      (initState "q" "base" "sum" 900 [taskA]) _ rfl,
   execute_plan_frame_and_queue.2.1 (okEvent 5000000 regA) []
      (initState "q2" "b2" "s2" 0 [taskB]) taskB [] rfl (by decide)⟩

end InternalRegulationAgent
